import Mathlib

/-!
Verification of the PS2000 power-supply driver (`src/ps2000.py`).

The file shallowly embeds the telegram codec, the typed accessors and the
session layer of the driver.  Python bytes are modelled as `Nat`
(theorems carry `≤ 0xFF` bounds where byte-ness matters), byte strings as
`List Nat`, Python floats as `ℚ` (the claims settled here never evaluate
`round` at a half-integer, the only place where Python's banker's rounding
differs from Mathlib's `round`), and failure paths (`sys.exit`, uncaught
`ZeroDivisionError` / `IndexError`) as explicit constructors of outcome
types.
-/

namespace ps2000

/-- PS_QUERY frame type constant (source line 24). -/
def PS_QUERY : Nat := 0x40

/-- PS_SEND frame type constant (source line 25). -/
def PS_SEND : Nat := 0xC0

/-- Body of the telegram built by `_construct` (source lines 60-68) before the
checksum is appended: start delimiter `0x30 + type`, device node, object, then
the data bytes; when data is non-empty the delimiter byte is additionally
incremented by `len(data) - 1` (`telegram[0] += len(data) - 1`). -/
def telegram_body (ty node obj : Nat) (data : List Nat) : List Nat :=
  if 0 < data.length then
    (0x30 + ty + (data.length - 1)) :: node :: obj :: data
  else
    [0x30 + ty, node, obj]

/-- Telegram construction, `ps2000._construct` (source lines 60-76): the body
followed by the checksum `cs = sum(body)` appended big-endian as
`cs >> 8` and `cs & 0xFF`. -/
def _construct (ty node obj : Nat) (data : List Nat) : List Nat :=
  telegram_body ty node obj data ++
    [(telegram_body ty node obj data).sum >>> 8,
     (telegram_body ty node obj data).sum &&& 0xFF]

/-- Checksum verification, `ps2000._check_checksum` (source lines 79-88):
sums `ans[0:-2]` and compares the last two bytes with `cs >> 8` and
`cs & 0xFF`.  The Python code prints an error and calls `sys.exit(1)` on
mismatch; that exit path is the `false` branch here. -/
def _check_checksum (ans : List Nat) : Bool :=
  let cs := (ans.take (ans.length - 2)).sum
  if ans.getD (ans.length - 2) 0 ≠ cs >>> 8 ∨ ans.getD (ans.length - 1) 0 ≠ cs &&& 0xFF then
    false
  else
    true

/-- Device-reported protocol error kinds, one per `elif` branch of
`ps2000._check_error` (source lines 91-122); codes not matched by any branch
are `unknown`. -/
inductive ErrorKind
  | checksumIncorrect
  | startDelimiterIncorrect
  | wrongOutputAddress
  | objectNotDefined
  | objectLengthIncorrect
  | accessDenied
  | deviceLocked
  | upperLimitExceeded
  | lowerLimitExceeded
  | unknown (code : Nat)
deriving DecidableEq

/-- Mapping of the error-code byte `ans[3]` to an `ErrorKind`, following the
`elif` chain of `_check_error` (source lines 99-116). -/
def classifyCode (c : Nat) : ErrorKind :=
  if c = 0x03 then .checksumIncorrect
  else if c = 0x04 then .startDelimiterIncorrect
  else if c = 0x05 then .wrongOutputAddress
  else if c = 0x07 then .objectNotDefined
  else if c = 0x08 then .objectLengthIncorrect
  else if c = 0x09 then .accessDenied
  else if c = 0x0F then .deviceLocked
  else if c = 0x30 then .upperLimitExceeded
  else if c = 0x31 then .lowerLimitExceeded
  else .unknown c

/-- Outcome of `ps2000._check_error`: the Python function either returns
`False` (no error) or prints a message and terminates the whole process via
`sys.exit(1)` (source line 122); it never returns an error value to its
caller. -/
inductive CheckErrorOutcome
  | noError
  | processExit (kind : ErrorKind)
deriving DecidableEq

/-- Error check, `ps2000._check_error` (source lines 91-122): if `ans[2]` is
not `0xFF` there is no error; if `ans[3]` is `0x00` the frame is a plain
acknowledge (no error); otherwise the process is terminated by
`sys.exit(1)` after printing the error named by `ans[3]`. -/
def _check_error (ans : List Nat) : CheckErrorOutcome :=
  if ans.getD 2 0 ≠ 0xFF then
    .noError
  else if ans.getD 3 0 = 0x00 then
    .noError
  else
    .processExit (classifyCode (ans.getD 3 0))

/-- True exactly on the outcomes of `_check_error` that terminate the
process. -/
def terminates_process (o : CheckErrorOutcome) : Bool :=
  match o with
  | .noError => false
  | .processExit _ => true

/-- Outcome of the response-validation part of `ps2000._transfer` (source
lines 145-154).  `shortResponse` models the `len(ans) < 5` exit (line 148),
`checksumExit` the exit inside `_check_checksum`, `errorExit` the exit inside
`_check_error`; `ok` returns the answer to the caller. -/
inductive TransferOutcome
  | ok (ans : List Nat)
  | shortResponse (received : Nat)
  | checksumExit
  | errorExit (kind : ErrorKind)
deriving DecidableEq

/-- Response validation of `ps2000._transfer` (source lines 145-154): first
the length check (`len(ans) < 5`), then `_check_checksum`, then
`_check_error`, in that order. -/
def _transfer_check (ans : List Nat) : TransferOutcome :=
  if ans.length < 5 then
    .shortResponse ans.length
  else if _check_checksum ans then
    match _check_error ans with
    | .noError => .ok ans
    | .processExit k => .errorExit k
  else
    .checksumExit

/-- Payload of a validated response, `ans[3:-2]`, as extracted by
`_get_binary` / `_set_binary` (source lines 160 and 166). -/
def response_payload (ans : List Nat) : List Nat :=
  (ans.drop 3).take (ans.length - 5)

/-- One request as handed to `_transfer (type, node, obj, data)`: every
accessor issues exactly one such request per call. -/
structure Request where
  frameType : Nat
  node : Nat
  obj : Nat
  data : List Nat
deriving DecidableEq

/-- Request issued by `ps2000._set_binary` (source lines 163-166):
`_transfer(PS_SEND, node, obj, [mask, data])`. -/
def _set_binary_request (obj mask data node : Nat) : Request :=
  ⟨PS_SEND, node, obj, [mask, data]⟩

/-- Request issued by `ps2000._get_integer` (source lines 181-184):
`_transfer(PS_QUERY, node, obj, "")` (empty data). -/
def _get_integer_request (obj node : Nat) : Request :=
  ⟨PS_QUERY, node, obj, []⟩

/-- Request issued by `ps2000._set_integer` (source lines 187-190):
`_transfer(PS_SEND, node, obj, [data >> 8, data & 0xFF])`. -/
def _set_integer_request (obj data node : Nat) : Request :=
  ⟨PS_SEND, node, obj, [data >>> 8, data &&& 0xFF]⟩

/-- Request issued by `ps2000._set_control` (source lines 274-275): one
`_set_binary` call on object 54. -/
def _set_control_request (mask data node : Nat) : Request :=
  _set_binary_request 54 mask data node

/-- Request issued by `ps2000.set_remote` (source lines 283-287): mask `0x10`,
data `0x10` to enter remote, `0x00` to leave it. -/
def set_remote_request (remote : Bool) (node : Nat) : Request :=
  if remote then _set_control_request 0x10 0x10 node
  else _set_control_request 0x10 0x00 node

/-- Request issued by `ps2000.set_output_on` (source lines 295-299): mask
`0x01`, data `0x01` to switch on, `0x00` to switch off. -/
def set_output_on_request (b : Bool) (node : Nat) : Request :=
  if b then _set_control_request 0x01 0x01 node
  else _set_control_request 0x01 0x00 node

/-- Return value of `ps2000._set_control` (source line 278):
`ans[0] == 0xFF and ans[1] == 0x00` evaluated on the payload `ans[3:-2]`,
with Python's short-circuiting `and` and its `IndexError` on a too-short
payload modelled as `none`. -/
def _set_control_result (payload : List Nat) : Option Bool :=
  match payload with
  | [] => none
  | a :: rest =>
    if a = 0xFF then
      match rest with
      | [] => none
      | b :: _ => some (b == 0x00)
    else
      some false

/-- Outcome of a `set_*` accessor that feeds a computed raw value to
`_set_integer`.  `sends raw` is the value handed on; `zeroDivisionError` is
Python's uncaught `ZeroDivisionError` from a float division by zero.
`invalidNominalError` is modelled from the spec: the spec requires an
`InvalidNominalError` for a zero nominal, but no such error exists anywhere
in the source. -/
inductive SetIntegerOutcome
  | sends (raw : ℤ)
  | zeroDivisionError
  | invalidNominalError
deriving DecidableEq

/-- Raw value computation of `ps2000.set_voltage` (source lines 253-254):
`int(round((u * 25600.0) / self.u_nom))` passed to `_set_integer(50, ·)`.
When `u_nom = 0` the division raises `ZeroDivisionError`. -/
def set_voltage (u u_nom : ℚ) : SetIntegerOutcome :=
  if u_nom = 0 then .zeroDivisionError
  else .sends (round (u * 25600 / u_nom))

/-- Raw value computation of `ps2000.set_current` (source lines 261-262):
`int(round((i * 25600.0) / self.i_nom))` passed to `_set_integer(51, ·)`. -/
def set_current (i i_nom : ℚ) : SetIntegerOutcome :=
  if i_nom = 0 then .zeroDivisionError
  else .sends (round (i * 25600 / i_nom))

/-- Raw value computation of `ps2000.set_OVP_threshold` (source lines
237-238): `self._set_integer(38, u, node)` — the argument is handed on
unchanged, with no scaling by the nominal voltage. -/
def set_OVP_threshold (u : ℤ) : SetIntegerOutcome :=
  .sends u

/-- Raw value computation of `ps2000.set_OCP_threshold` (source lines
245-246): `self._set_integer(39, i, node)` — the argument is handed on
unchanged, with no scaling by the nominal current. -/
def set_OCP_threshold (i : ℤ) : SetIntegerOutcome :=
  .sends i

/-- Raw-to-physical conversion used by the scaled getters
(`get_voltage_setpoint`, source lines 249-251, and its siblings):
`nominal * raw / 25600`. -/
def raw_to_physical (raw : ℤ) (nominal : ℚ) : ℚ :=
  nominal * raw / 25600

/-- Physical-to-raw conversion used by `set_voltage` / `set_current` (source
lines 253-254 and 261-262): `round(physical * 25600 / nominal)`. -/
def physical_to_raw (physical nominal : ℚ) : ℤ :=
  round (physical * 25600 / nominal)

/-- Request issued by `ps2000.get_OVP_threshold` (source lines 233-234):
`self._get_integer(38, node=0)` — the hard-coded `node=0` ignores the `node`
parameter of the method. -/
def get_OVP_threshold_request (node : Nat) : Request :=
  _get_integer_request 38 0

/-- Request issued by `ps2000.get_OCP_threshold` (source lines 241-242):
`self._get_integer(39, node)`. -/
def get_OCP_threshold_request (node : Nat) : Request :=
  _get_integer_request 39 node

/-- Request issued by `ps2000.get_voltage_setpoint` (source lines 249-250):
`self._get_integer(50, node)`. -/
def get_voltage_setpoint_request (node : Nat) : Request :=
  _get_integer_request 50 node

/-- Request issued by `ps2000.get_current_setpoint` (source lines 257-258):
`self._get_integer(51, node)`. -/
def get_current_setpoint_request (node : Nat) : Request :=
  _get_integer_request 51 node

/-- Session-level actions traced by the context-manager model: the
`set_remote` calls of `__enter__` / `__exit__`, the `close()` call, and
arbitrary body operations (labelled by a number). -/
inductive Action
  | setRemote (remote : Bool) (node : Nat)
  | closePort
  | op (label : Nat)
deriving DecidableEq

/-- Actions performed by `ps2000.__enter__` (source lines 47-51):
`set_remote(True)` for node 0 and, on triple devices, for node 1. -/
def enter_trace (triple : Bool) : List Action :=
  [Action.setRemote true 0] ++
    (if triple then [Action.setRemote true 1] else [])

/-- Actions performed by `ps2000.__exit__` (source lines 53-57):
`set_remote(False)` for node 0, on triple devices also for node 1, then
`close()`. -/
def exit_trace (triple : Bool) : List Action :=
  [Action.setRemote false 0] ++
    (if triple then [Action.setRemote false 1] else []) ++
    [Action.closePort]

/-- Actions performed by the body of a `with` block: each operation is an
action paired with a flag saying whether it raises; execution stops at the
first raising operation (the raised exception propagates). -/
def body_trace : List (Action × Bool) → List Action
  | [] => []
  | (a, raises) :: rest => a :: (if raises then [] else body_trace rest)

/-- Modelled from Python's `with`-statement semantics, which the source
relies on (`with ps2000(args.port, device_triple) as ps`, source line 439):
`__enter__` runs first, then the body until it returns or raises
(`KeyboardInterrupt` included), and `__exit__` runs on every exit path
before control leaves the block. -/
def with_remote_trace (triple : Bool) (body : List (Action × Bool)) : List Action :=
  enter_trace triple ++ body_trace body ++ exit_trace triple

/-- Decides whether action `x` occurs in the trace strictly before a later
occurrence of action `y`. -/
def occursBefore (x y : Action) : List Action → Bool
  | [] => false
  | a :: rest => (decide (a = x) && decide (y ∈ rest)) || occursBefore x y rest

/-- Frame layout as the spec words it: `[delimiter][node][object][data...]`
with delimiter `0x30 + frameType`, plus `len(data) - 1` when data is
non-empty, followed by the 16-bit sum of all prior bytes split big-endian
(high byte `cs / 256`, low byte `cs % 256`).  Stated from the spec to be
compared with `_construct`. -/
def spec_frame (ty node obj : Nat) (data : List Nat) : List Nat :=
  let delim := 0x30 + ty + (if 0 < data.length then data.length - 1 else 0)
  let front := delim :: node :: obj :: data
  front ++ [front.sum / 256, front.sum % 256]

/-- Appending the big-endian split of a list's sum yields a byte sequence
that `_check_checksum` accepts. -/
theorem check_checksum_append (l : List Nat) :
    _check_checksum (l ++ [l.sum >>> 8, l.sum &&& 0xFF]) = true := by
  have h2 : (l ++ [l.sum >>> 8, l.sum &&& 0xFF]).length - 2 = l.length := by
    simp
  have h1 : (l ++ [l.sum >>> 8, l.sum &&& 0xFF]).length - 1 = l.length + 1 := by
    simp
  unfold _check_checksum
  rw [h2, h1, List.take_left]
  rw [List.getD_append_right _ _ _ _ (le_refl l.length)]
  rw [List.getD_append_right _ _ _ _ (Nat.le_succ_of_le (le_refl l.length))]
  simp

/-- Right shift by 8 is division by 256. -/
theorem shiftRight_eight (x : Nat) : x >>> 8 = x / 256 := by
  rw [Nat.shiftRight_eq_div_pow]

/-- Masking with `0xFF` is reduction modulo 256. -/
theorem and_mask_255 (x : Nat) : x &&& 0xFF = x % 256 := by
  have h := Nat.and_pow_two_sub_one_eq_mod x 8
  norm_num at h
  exact h

/-- Claim C1: for every frame type, node id, object id and data byte sequence
within the device-defined maximum length, the telegram produced by
`_construct` passes `_check_checksum`, and the sum of all bytes preceding the
two checksum bytes fits in 16 bits, so the appended bytes are its big-endian
split. -/
theorem construct_passes_checksum_C1 (ty node obj : Nat) (data : List Nat)
    (hty : ty = 0x40 ∨ ty = 0xC0) (hnode : node ≤ 0xFF) (hobj : obj ≤ 0xFF)
    (hdata : ∀ b ∈ data, b ≤ 0xFF) (hlen : data.length ≤ 16) :
    _check_checksum (_construct ty node obj data) = true ∧
    (telegram_body ty node obj data).sum < 2 ^ 16 := by
  constructor
  · exact check_checksum_append _
  · have hb : ∀ x ∈ telegram_body ty node obj data, x ≤ 255 := by
      intro x hx
      unfold telegram_body at hx
      by_cases hd : 0 < data.length
      · rw [if_pos hd] at hx
        simp only [List.mem_cons] at hx
        rcases hx with rfl | rfl | rfl | hx
        · rcases hty with h | h <;> omega
        · exact hnode
        · exact hobj
        · exact hdata x hx
      · rw [if_neg hd] at hx
        simp only [List.mem_cons, List.not_mem_nil, or_false] at hx
        rcases hx with rfl | rfl | rfl
        · rcases hty with h | h <;> omega
        · exact hnode
        · exact hobj
    have hsum := List.sum_le_card_nsmul _ 255 hb
    rw [smul_eq_mul] at hsum
    have hlen' : (telegram_body ty node obj data).length ≤ 19 := by
      unfold telegram_body
      by_cases hd : 0 < data.length
      · rw [if_pos hd]
        simp only [List.length_cons]
        omega
      · rw [if_neg hd]
        simp
    calc (telegram_body ty node obj data).sum
        ≤ (telegram_body ty node obj data).length * 255 := hsum
      _ ≤ 19 * 255 := Nat.mul_le_mul_right _ hlen'
      _ < 2 ^ 16 := by norm_num

/-- Witness for C1 at the concrete Send telegram for node 0, object 50, data
`[0x32, 0x00]`. -/
theorem construct_passes_checksum_C1_witness :
    _check_checksum (_construct 0xC0 0 50 [0x32, 0x00]) = true ∧
    (telegram_body 0xC0 0 50 [0x32, 0x00]).sum < 2 ^ 16 :=
  construct_passes_checksum_C1 0xC0 0 50 [0x32, 0x00] (Or.inr rfl) (by decide)
    (by decide) (by decide) (by decide)

/-- Claim C2: `_construct` lays the frame out as
`[delimiter, node, object, data..., checksum_hi, checksum_lo]` with delimiter
`0x30 + frameType`, incremented by `len(data) - 1` when data is non-empty
(the `spec_frame` layout); in particular the Query telegram for node 0,
object 2 with no data is exactly `[0x70, 0x00, 0x02, 0x00, 0x72]`. -/
theorem construct_layout_C2 :
    (∀ (ty node obj : Nat) (data : List Nat),
      _construct ty node obj data = spec_frame ty node obj data) ∧
    _construct 0x40 0 2 [] = [0x70, 0x00, 0x02, 0x00, 0x72] := by
  constructor
  · intro ty node obj data
    by_cases hd : 0 < data.length
    · unfold _construct spec_frame telegram_body
      rw [if_pos hd, if_pos hd, shiftRight_eight, and_mask_255]
    · have hnil : data = [] := by
        cases data with
        | nil => rfl
        | cons a t => simp at hd
      subst hnil
      unfold _construct spec_frame telegram_body
      simp [shiftRight_eight, and_mask_255]
  · decide

/-- Claim C3 (code bug): at `u = 1` with nominal `2`, `set_OVP_threshold` and
`set_OCP_threshold` hand the physical value to `_set_integer` unscaled,
whereas the claimed scaling formula — the one `set_voltage` actually
applies — yields raw `12800`; the setters therefore do not use the same
scaling as `set_voltage` / `set_current`, even though the matching getters
`get_OVP_threshold` / `get_OCP_threshold` do scale on read. -/
theorem set_OVP_threshold_unscaled_C3 :
    set_OVP_threshold 1 = SetIntegerOutcome.sends 1 ∧
    set_OCP_threshold 1 = SetIntegerOutcome.sends 1 ∧
    physical_to_raw 1 2 = 12800 ∧
    set_voltage 1 2 = SetIntegerOutcome.sends 12800 ∧
    set_OVP_threshold 1 ≠ set_voltage 1 2 := by
  have hraw : physical_to_raw 1 2 = 12800 := by
    rw [physical_to_raw]
    norm_num
  have hv : set_voltage 1 2 = SetIntegerOutcome.sends 12800 := by
    rw [set_voltage]
    norm_num
  refine ⟨rfl, rfl, hraw, hv, ?_⟩
  rw [hv]
  decide

/-- Claim C4 (counterexample): at `u = 5` and `u_nom = 0`, `set_voltage`
raises Python's `ZeroDivisionError`; it does not fail with
`InvalidNominalError`, which exists nowhere in the source. -/
theorem set_voltage_zero_nominal_C4_counterexample :
    set_voltage 5 0 = SetIntegerOutcome.zeroDivisionError ∧
    set_voltage 5 0 ≠ SetIntegerOutcome.invalidNominalError := by
  constructor <;> simp [set_voltage]

/-- Claim C4 (amended): for every physical value, `set_voltage` and
`set_current` with a zero nominal propagate an unguarded
`ZeroDivisionError`; no `InvalidNominalError` guard exists. -/
theorem set_scaled_zero_nominal_C4 :
    ∀ u i : ℚ,
      set_voltage u 0 = SetIntegerOutcome.zeroDivisionError ∧
      set_current i 0 = SetIntegerOutcome.zeroDivisionError := by
  intro u i
  constructor
  · simp [set_voltage]
  · simp [set_current]

/-- Claim C5 (counterexample): on the response `[0x70, 0x00, 0xFF, 0x09,
0x82]`, `_check_error` classifies access-denied but terminates the whole
process (`sys.exit(1)`), so the error is not surfaced to the caller as a
typed result. -/
theorem check_error_exit_C5_counterexample :
    _check_error [0x70, 0x00, 0xFF, 0x09, 0x82] =
      CheckErrorOutcome.processExit ErrorKind.accessDenied ∧
    terminates_process (_check_error [0x70, 0x00, 0xFF, 0x09, 0x82]) = true := by
  decide

/-- Claim C5 (amended): `_check_error` on any response with byte 2 `0xFF` and
byte 3 `0x00` reports no error (plain acknowledge); on any response with
byte 2 `0xFF` and byte 3 `0x09` it classifies access-denied but terminates
the process via `sys.exit(1)` instead of returning a typed result to the
caller. -/
theorem check_error_classification_C5 :
    (∀ ans : List Nat, ans.getD 2 0 = 0xFF → ans.getD 3 0 = 0x00 →
      _check_error ans = CheckErrorOutcome.noError) ∧
    (∀ ans : List Nat, ans.getD 2 0 = 0xFF → ans.getD 3 0 = 0x09 →
      _check_error ans = CheckErrorOutcome.processExit ErrorKind.accessDenied ∧
      terminates_process (_check_error ans) = true) := by
  constructor
  · intro ans h2 h3
    unfold _check_error
    rw [h2, h3]
    simp
  · intro ans h2 h3
    unfold _check_error
    rw [h2, h3]
    refine ⟨by norm_num [classifyCode], ?_⟩
    unfold terminates_process
    norm_num [classifyCode]

/-- Witness for C5 at concrete acknowledge and access-denied responses. -/
theorem check_error_classification_C5_witness :
    _check_error [0x70, 0x00, 0xFF, 0x00, 0x6F] = CheckErrorOutcome.noError ∧
    _check_error [0x70, 0x00, 0xFF, 0x09, 0x78] =
      CheckErrorOutcome.processExit ErrorKind.accessDenied ∧
    terminates_process (_check_error [0x70, 0x00, 0xFF, 0x09, 0x78]) = true :=
  ⟨check_error_classification_C5.1 [0x70, 0x00, 0xFF, 0x00, 0x6F] rfl rfl,
   check_error_classification_C5.2 [0x70, 0x00, 0xFF, 0x09, 0x78] rfl rfl⟩

/-- Claim C6: every response of fewer than 5 bytes makes `_transfer` fail
with the short-response exit, regardless of content and before any checksum
or error-code check is reached. -/
theorem transfer_short_response_C6 (ans : List Nat) (h : ans.length < 5) :
    _transfer_check ans = TransferOutcome.shortResponse ans.length := by
  unfold _transfer_check
  rw [if_pos h]

/-- Witness for C6 at a 2-byte response whose content would otherwise look
like an access-denied error. -/
theorem transfer_short_response_C6_witness :
    _transfer_check [0xFF, 0x09] = TransferOutcome.shortResponse 2 :=
  transfer_short_response_C6 [0xFF, 0x09] (by decide)

/-- Claim C7: for every nominal > 0 and raw in `[0, 25600]`, converting raw
to physical (`nominal * raw / 25600`) and back (`round(physical * 25600 /
nominal)`) recovers raw exactly, hence within the claimed tolerance of 1. -/
theorem scaling_roundtrip_C7 (nominal : ℚ) (raw : ℤ) (hn : 0 < nominal)
    (h0 : 0 ≤ raw) (h1 : raw ≤ 25600) :
    physical_to_raw (raw_to_physical raw nominal) nominal = raw ∧
    |physical_to_raw (raw_to_physical raw nominal) nominal - raw| ≤ 1 := by
  have hne : nominal ≠ 0 := ne_of_gt hn
  have key : raw_to_physical raw nominal * 25600 / nominal = (raw : ℚ) := by
    rw [raw_to_physical]
    field_simp
  have heq : physical_to_raw (raw_to_physical raw nominal) nominal = raw := by
    rw [physical_to_raw, key, round_intCast]
  refine ⟨heq, ?_⟩
  rw [heq]
  simp

/-- Witness for C7 at nominal 2 and raw 12800. -/
theorem scaling_roundtrip_C7_witness :
    physical_to_raw (raw_to_physical 12800 2) 2 = 12800 ∧
    |physical_to_raw (raw_to_physical 12800 2) 2 - 12800| ≤ 1 :=
  scaling_roundtrip_C7 2 12800 (by norm_num) (by norm_num) (by norm_num)

/-- Claim C8 (counterexample): the checksum-valid, error-free response
`[0xF0, 0x00, 0x36, 0xFF, 0x00, 0x05, 0x02, 0x2A]` reaches `_set_control`
with payload `[0xFF, 0x00, 0x05]`, which is not `[0xFF, 0x00]`, yet the
result is true — the claimed equivalence with payload `= [0xFF, 0x00]`
fails in the only-if direction. -/
theorem set_control_result_C8_counterexample :
    _transfer_check [0xF0, 0x00, 0x36, 0xFF, 0x00, 0x05, 0x02, 0x2A] =
      TransferOutcome.ok [0xF0, 0x00, 0x36, 0xFF, 0x00, 0x05, 0x02, 0x2A] ∧
    response_payload [0xF0, 0x00, 0x36, 0xFF, 0x00, 0x05, 0x02, 0x2A] =
      [0xFF, 0x00, 0x05] ∧
    _set_control_result [0xFF, 0x00, 0x05] = some true ∧
    ([0xFF, 0x00, 0x05] : List Nat) ≠ [0xFF, 0x00] := by
  decide

/-- Claim C8 (amended): `set_remote` and `set_output_on` each issue exactly
one masked `_set_binary` request on object 54 (mask `0x10` for remote, mask
`0x01` for output), and the returned acknowledge flag is true iff the first
two payload bytes are `0xFF` and `0x00` (not iff the whole payload equals
`[0xFF, 0x00]`; payloads of fewer than two bytes can raise `IndexError`,
modelled as `none`). -/
theorem set_control_requests_C8 :
    (∀ node : Nat,
      set_remote_request true node = ⟨PS_SEND, node, 54, [0x10, 0x10]⟩ ∧
      set_remote_request false node = ⟨PS_SEND, node, 54, [0x10, 0x00]⟩ ∧
      set_output_on_request true node = ⟨PS_SEND, node, 54, [0x01, 0x01]⟩ ∧
      set_output_on_request false node = ⟨PS_SEND, node, 54, [0x01, 0x00]⟩) ∧
    (∀ (a b : Nat) (rest : List Nat),
      _set_control_result (a :: b :: rest) = some ((a == 0xFF) && (b == 0x00))) := by
  constructor
  · intro node
    exact ⟨rfl, rfl, rfl, rfl⟩
  · intro a b rest
    by_cases h : a = 0xFF
    · subst h
      simp [_set_control_result]
    · simp [_set_control_result, h]

/-- A trace that exhibits `x` before `y` keeps doing so after prepending any
actions. -/
theorem occursBefore_append (x y : Action) (l m : List Action)
    (h : occursBefore x y m = true) : occursBefore x y (l ++ m) = true := by
  induction l with
  | nil => simpa using h
  | cons a t ih =>
    rw [List.cons_append]
    unfold occursBefore
    rw [ih]
    simp

/-- Claim C9: on every exit path of the remote-control `with` scope — normal
return, an operation raising at any point of the body, or an interrupt, all
modelled by the body trace stopping early — `__exit__` still issues
`set_remote(False)` for node 0 (and for node 1 on triple devices) before
`close()` ends the session. -/
theorem exit_remote_on_every_path_C9 :
    ∀ (triple : Bool) (body : List (Action × Bool)),
      occursBefore (Action.setRemote false 0) Action.closePort
        (with_remote_trace triple body) = true ∧
      (triple = true →
        occursBefore (Action.setRemote false 1) Action.closePort
          (with_remote_trace triple body) = true) := by
  intro triple body
  constructor
  · unfold with_remote_trace
    apply occursBefore_append
    cases triple <;> decide
  · intro ht
    subst ht
    unfold with_remote_trace
    apply occursBefore_append
    decide

/-- Witness for C9 on a triple device with a body whose single operation
raises. -/
theorem exit_remote_on_every_path_C9_witness :
    occursBefore (Action.setRemote false 0) Action.closePort
      (with_remote_trace true [(Action.op 7, true)]) = true ∧
    (true = true →
      occursBefore (Action.setRemote false 1) Action.closePort
        (with_remote_trace true [(Action.op 7, true)]) = true) :=
  exit_remote_on_every_path_C9 true [(Action.op 7, true)]

/-- Claim C10: `get_OVP_threshold` ignores its node argument and always
queries object 38 on node 0, while `get_OCP_threshold`,
`get_voltage_setpoint` and `get_current_setpoint` query the node they are
given. -/
theorem get_OVP_threshold_node_C10 :
    ∀ n : Nat,
      get_OVP_threshold_request n = ⟨PS_QUERY, 0, 38, []⟩ ∧
      (get_OVP_threshold_request n).node = 0 ∧
      get_OCP_threshold_request n = ⟨PS_QUERY, n, 39, []⟩ ∧
      get_voltage_setpoint_request n = ⟨PS_QUERY, n, 50, []⟩ ∧
      get_current_setpoint_request n = ⟨PS_QUERY, n, 51, []⟩ := by
  intro n
  exact ⟨rfl, rfl, rfl, rfl, rfl⟩

end ps2000
